import Mathlib

set_option autoImplicit false

/-! Shallow embedding of the pycoQC ingestion and normalization pipeline
(src/pycoQC/pycoQC.py, pycoQC.__init__, lines 51 to 128).

A parsed sequencing summary table is a header (the column names) together
with a list of rows; each row maps column names to cell values. Cell
values are strings, numbers (modelled as exact rationals) or missing
(NaN). The pipeline stages mirror the source: dropna, schema detection
with the 1D and 2D column sets, the optional zero length filter, the
optional run id selection, the per run id read counting, and the final
keying of the table by the read_id column. -/

/-- Cell value of the parsed table: a string, a number (an exact rational
in this embedding), or a missing value (NaN after pandas read_csv). -/
inductive Val where
  | str : String → Val
  | num : ℚ → Val
  | na : Val
deriving DecidableEq, Repr, Inhabited

/-- Whether a cell value is missing. -/
def Val.isNA : Val → Bool
  | .na => true
  | _ => false

/-- One row of the table: an association list from column names to values. -/
abbrev Row := List (String × Val)

/-- Value of column c in a row; a column absent from the row reads as NaN. -/
def getCol : Row → String → Val
  | [], _ => Val.na
  | p :: rest, c => if p.1 = c then p.2 else getCol rest c

/-- Whether a row carries an entry for column c. -/
def hasKey : Row → String → Bool
  | [], _ => false
  | p :: rest, c => decide (p.1 = c) || hasKey rest c

/-- Column assignment df[c] = v restricted to one row: replaces the value
when the column exists and appends the column otherwise, as pandas column
assignment does. -/
def setCol (r : Row) (c : String) (v : Val) : Row :=
  if hasKey r c then r.map (fun p => if p.1 = c then (c, v) else p)
  else r ++ [(c, v)]

/-- The parsed tab separated summary table: header and data rows. -/
structure Table where
  header : List String
  rows : List Row
deriving DecidableEq, Repr, Inhabited

/-- A row is complete when no header column reads as NaN in it. -/
def rowComplete (header : List String) (r : Row) : Bool :=
  header.all (fun c => !(getCol r c).isNA)

/-- df.dropna: discard every row with a missing value in any header column
(source line 70). -/
def dropna (t : Table) : Table :=
  { t with rows := t.rows.filter (rowComplete t.header) }

/-- Columns required by the 1D schema check (source line 76). -/
def cols1D : List String :=
  ["run_id", "channel", "start_time", "duration", "num_events",
   "sequence_length_template", "mean_qscore_template"]

/-- Columns required by the 2D fallback schema check (source line 84). -/
def cols2D : List String :=
  ["run_id", "channel", "start_time", "sequence_length_2d", "mean_qscore_2d"]

/-- Whether every column of cs appears in the header of t. -/
def hasCols (t : Table) (cs : List String) : Bool :=
  cs.all (fun c => decide (c ∈ t.header))

/-- First column of cs missing from the header of t, if any: the column
named by the failing assert of a schema check. -/
def firstMissing (t : Table) (cs : List String) : Option String :=
  cs.find? (fun c => !(decide (c ∈ t.header)))

/-- Division of a cell by a rational constant; only numbers divide. -/
def vdiv (v : Val) (d : ℚ) : Val :=
  match v with
  | .num q => .num (q / d)
  | _ => .na

/-- Multiplication of a cell by a rational constant; only numbers
multiply. -/
def vmul (v : Val) (m : ℚ) : Val :=
  match v with
  | .num q => .num (q * m)
  | _ => .na

/-- Row part of the 2D normalization (source lines 90 to 97): estimate
duration as sequence_length_2d / 450 and num_events as
sequence_length_2d * 1.8 (that is, times 9 / 5), and copy the 2d columns
to the template column names. The source reads sequence_length_2d from
the updated frame at each step; none of the assigned columns is
sequence_length_2d, so reading from the original row is equivalent. -/
def norm2DRow (r : Row) : Row :=
  setCol
    (setCol
      (setCol
        (setCol r "duration" (vdiv (getCol r "sequence_length_2d") 450))
        "num_events" (vmul (getCol r "sequence_length_2d") (9 / 5)))
      "sequence_length_template" (getCol r "sequence_length_2d"))
    "mean_qscore_template" (getCol r "mean_qscore_2d")

/-- Add a column name to the header if absent (pandas column assignment
appends new columns at the end). -/
def addHeaderCol (h : List String) (c : String) : List String :=
  if c ∈ h then h else h ++ [c]

/-- Table part of the 2D normalization: the derived and renamed columns
are added to every row and to the header. -/
def schema2D (t : Table) : Table :=
  { header :=
      addHeaderCol
        (addHeaderCol
          (addHeaderCol (addHeaderCol t.header "duration") "num_events")
          "sequence_length_template")
        "mean_qscore_template",
    rows := t.rows.map norm2DRow }

/-- Failures of the ingestion pipeline. schemaError carries the column
named by the failing assert of the 2D check (source line 85); keyError is
set_index applied while the read_id column is absent (source line 126). -/
inductive IngestError where
  | schemaError : String → IngestError
  | keyError : String → IngestError
deriving DecidableEq, Repr

/-- Schema detection (source lines 75 to 99): the 1D column check runs
first; on its failure the 2D check runs, raising on its first missing
column, and on success the 2D normalization is applied. Returns the
normalized table together with the run_type tag. -/
def detectSchema (t : Table) : Except IngestError (Table × String) :=
  if hasCols t cols1D then Except.ok (t, "1D")
  else
    match firstMissing t cols2D with
    | some c => Except.error (IngestError.schemaError c)
    | none => Except.ok (schema2D t, "2D")

/-- The pandas comparison df[column] > 0 for one cell: true only for a
positive number. -/
def vposQ (v : Val) : Bool :=
  match v with
  | .num q => decide (0 < q)
  | _ => false

/-- Zero length read filter (source line 107): keep the rows whose
sequence_length_template is positive. -/
def zeroFilter (t : Table) : Table :=
  { t with rows := t.rows.filter (fun r => vposQ (getCol r "sequence_length_template")) }

/-- The table after the optional zero length filter (source lines 104 to
109): the filter runs only when filter_zero_len is set. -/
def afterZeroFilter (fz : Bool) (t : Table) : Table :=
  if fz then zeroFilter t else t

/-- The pandas comparison df[column] == s for one cell: true only for an
equal string. -/
def vStrEq (v : Val) (s : String) : Bool :=
  match v with
  | .str x => decide (x = s)
  | _ => false

/-- Run id selection (source lines 112 to 115): the Python truthiness
test on runid skips the filter for None and for the empty string. -/
def runidFilterStep (runid : Option String) (t : Table) : Table :=
  match runid with
  | none => t
  | some rid =>
      if rid = "" then t
      else { t with rows := t.rows.filter (fun r => vStrEq (getCol r "run_id") rid) }

/-- The table after both optional filters, in source order: the zero
length filter first, then the run id selection. -/
def filteredTable (runid : Option String) (fz : Bool) (t : Table) : Table :=
  runidFilterStep runid (afterZeroFilter fz t)

/-- Distinct values of a list in first encountered order: the key order
produced by the pandas value counting hash table. -/
def firstSeen : List Val → List Val
  | [] => []
  | v :: rest => v :: (firstSeen rest).filter (fun x => !(decide (x = v)))

/-- Insert a keyed count into a list sorted by descending count, after
every entry whose count is at least as large. -/
def insertDesc (p : Val × Nat) : List (Val × Nat) → List (Val × Nat)
  | [] => [p]
  | q :: rest => if q.2 < p.2 then p :: q :: rest else q :: insertDesc p rest

/-- Sort keyed counts by descending count. pandas value_counts sorts with
an unstable sort whose order between equal counts is unspecified; this
embedding fixes first encountered order for such ties, and no theorem
below depends on the relative order of entries with equal counts. -/
def sortDesc : List (Val × Nat) → List (Val × Nat)
  | [] => []
  | p :: rest => insertDesc p (sortDesc rest)

/-- value_counts on the run_id column (source line 120): count each
distinct run id value and sort the counts in descending order. -/
def runidCounts (rows : List Row) : List (Val × Nat) :=
  sortDesc ((firstSeen (rows.map (fun r => getCol r "run_id"))).map
    (fun v => (v, ((rows.map (fun r => getCol r "run_id")).filter
      (fun x => decide (x = v))).length)))

/-- State produced by a successful run of pycoQC.__init__: the canonical
table (keyed by read_id), the detected run_type, the zero length discard
counter (absent when the filter is off, since the attribute is then never
set), the per run id counts, and the total valid read count. -/
structure IngestResult where
  df : Table
  run_type : String
  zero_len_reads : Option Nat
  runid_counts : List (Val × Nat)
  total_reads : Nat
deriving DecidableEq, Repr, Inhabited

/-- The ingestion pipeline of pycoQC.__init__ (source lines 51 to 128) on
an already parsed table: dropna, schema detection, the optional zero
length filter, the optional run id selection, the run id counting, and
the keying of the table by read_id, which fails when the read_id column
is absent and performs no uniqueness check. -/
def ingest (t : Table) (runid : Option String) (fz : Bool) :
    Except IngestError IngestResult :=
  match detectSchema (dropna t) with
  | Except.error e => Except.error e
  | Except.ok (t2, rt) =>
      if "read_id" ∈ (filteredTable runid fz t2).header then
        Except.ok
          { df := filteredTable runid fz t2
            run_type := rt
            zero_len_reads :=
              if fz then some (t2.rows.length - (zeroFilter t2).rows.length) else none
            runid_counts := runidCounts (filteredTable runid fz t2).rows
            total_reads := (filteredTable runid fz t2).rows.length }
      else Except.error (IngestError.keyError "read_id")

/-! Supporting lemmas about rows and columns. -/

theorem getCol_update_self (r : Row) (c : String) (v : Val) :
    hasKey r c = true →
    getCol (r.map (fun p => if p.1 = c then (c, v) else p)) c = v := by
  induction r with
  | nil => intro h; simp [hasKey] at h
  | cons p rest ih =>
      intro h
      by_cases hp : p.1 = c
      · simp only [List.map_cons, if_pos hp]
        simp [getCol]
      · simp only [hasKey, Bool.or_eq_true, decide_eq_true_eq] at h
        rcases h with h | h
        · exact absurd h hp
        · simp only [List.map_cons, if_neg hp, getCol]
          exact ih h

theorem getCol_update_ne (r : Row) (c c' : String) (v : Val) (h : c' ≠ c) :
    getCol (r.map (fun p => if p.1 = c then (c, v) else p)) c' = getCol r c' := by
  induction r with
  | nil => rfl
  | cons p rest ih =>
      by_cases hp : p.1 = c
      · have hpc : ¬ p.1 = c' := by rw [hp]; exact fun hc => h hc.symm
        simp only [List.map_cons, if_pos hp, getCol]
        rw [if_neg (fun hc => h hc.symm), if_neg hpc]
        exact ih
      · simp only [List.map_cons, if_neg hp, getCol]
        by_cases hq : p.1 = c'
        · rw [if_pos hq, if_pos hq]
        · rw [if_neg hq, if_neg hq]
          exact ih

theorem getCol_append_single_self (r : Row) (c : String) (v : Val) :
    hasKey r c = false → getCol (r ++ [(c, v)]) c = v := by
  induction r with
  | nil => intro _; simp [getCol]
  | cons p rest ih =>
      intro h
      simp only [hasKey, Bool.or_eq_false_iff, decide_eq_false_iff_not] at h
      simp only [List.cons_append, getCol, if_neg h.1]
      exact ih h.2

theorem getCol_append_single_ne (r : Row) (c c' : String) (v : Val) (h : c' ≠ c) :
    getCol (r ++ [(c, v)]) c' = getCol r c' := by
  induction r with
  | nil => simp [getCol, Ne.symm h]
  | cons p rest ih =>
      simp only [List.cons_append, getCol]
      by_cases hq : p.1 = c'
      · rw [if_pos hq, if_pos hq]
      · rw [if_neg hq, if_neg hq]
        exact ih

theorem getCol_setCol_self (r : Row) (c : String) (v : Val) :
    getCol (setCol r c v) c = v := by
  unfold setCol
  split
  next h => exact getCol_update_self r c v h
  next h => exact getCol_append_single_self r c v (by simpa using h)

theorem getCol_setCol_ne (r : Row) (c c' : String) (v : Val) (h : c' ≠ c) :
    getCol (setCol r c v) c' = getCol r c' := by
  unfold setCol
  split
  · exact getCol_update_ne r c c' v h
  · exact getCol_append_single_ne r c c' v h

/-! Reading the derived columns of a 2D normalized row. -/

theorem norm2DRow_seq2d (r : Row) :
    getCol (norm2DRow r) "sequence_length_2d" = getCol r "sequence_length_2d" := by
  unfold norm2DRow
  rw [getCol_setCol_ne _ _ _ _ (by decide), getCol_setCol_ne _ _ _ _ (by decide),
    getCol_setCol_ne _ _ _ _ (by decide), getCol_setCol_ne _ _ _ _ (by decide)]

theorem norm2DRow_duration (r : Row) :
    getCol (norm2DRow r) "duration" = vdiv (getCol r "sequence_length_2d") 450 := by
  unfold norm2DRow
  rw [getCol_setCol_ne _ _ _ _ (by decide), getCol_setCol_ne _ _ _ _ (by decide),
    getCol_setCol_ne _ _ _ _ (by decide), getCol_setCol_self]

theorem norm2DRow_num_events (r : Row) :
    getCol (norm2DRow r) "num_events" = vmul (getCol r "sequence_length_2d") (9 / 5) := by
  unfold norm2DRow
  rw [getCol_setCol_ne _ _ _ _ (by decide), getCol_setCol_ne _ _ _ _ (by decide),
    getCol_setCol_self]

theorem norm2DRow_seq_template (r : Row) :
    getCol (norm2DRow r) "sequence_length_template" = getCol r "sequence_length_2d" := by
  unfold norm2DRow
  rw [getCol_setCol_ne _ _ _ _ (by decide), getCol_setCol_self]

theorem norm2DRow_qscore_template (r : Row) :
    getCol (norm2DRow r) "mean_qscore_template" = getCol r "mean_qscore_2d" := by
  unfold norm2DRow
  rw [getCol_setCol_self]

/-! Structural lemmas about the pipeline stages. -/

theorem mem_addHeaderCol {h : List String} {c : String} (d : String) (hc : c ∈ h) :
    c ∈ addHeaderCol h d := by
  unfold addHeaderCol
  split
  · exact hc
  · exact List.mem_append_left _ hc

theorem runidFilterStep_header (runid : Option String) (t : Table) :
    (runidFilterStep runid t).header = t.header := by
  cases runid with
  | none => rfl
  | some rid =>
      show (if rid = "" then t
        else { t with rows := t.rows.filter (fun r => vStrEq (getCol r "run_id") rid) }).header
          = t.header
      split <;> rfl

theorem runidFilterStep_length_le (runid : Option String) (t : Table) :
    (runidFilterStep runid t).rows.length ≤ t.rows.length := by
  cases runid with
  | none => exact le_refl _
  | some rid =>
      show (if rid = "" then t
        else { t with rows := t.rows.filter (fun r => vStrEq (getCol r "run_id") rid) }).rows.length
          ≤ t.rows.length
      split
      · exact le_refl _
      · exact List.length_filter_le _ _

theorem mem_runidFilterStep {runid : Option String} {t : Table} {row : Row}
    (h : row ∈ (runidFilterStep runid t).rows) : row ∈ t.rows := by
  cases runid with
  | none => exact h
  | some rid =>
      have h' : row ∈ (if rid = "" then t
          else { t with rows := t.rows.filter (fun r => vStrEq (getCol r "run_id") rid) }).rows := h
      by_cases hq : rid = ""
      · rw [if_pos hq] at h'
        exact h'
      · rw [if_neg hq] at h'
        exact List.mem_of_mem_filter h'

theorem afterZeroFilter_header (fz : Bool) (t : Table) :
    (afterZeroFilter fz t).header = t.header := by
  cases fz <;> rfl

theorem afterZeroFilter_length_le (fz : Bool) (t : Table) :
    (afterZeroFilter fz t).rows.length ≤ t.rows.length := by
  cases fz
  · exact le_refl _
  · exact List.length_filter_le _ _

theorem mem_afterZeroFilter {fz : Bool} {t : Table} {row : Row}
    (h : row ∈ (afterZeroFilter fz t).rows) : row ∈ t.rows := by
  cases fz
  · exact h
  · exact List.mem_of_mem_filter h

theorem filteredTable_header (runid : Option String) (fz : Bool) (t : Table) :
    (filteredTable runid fz t).header = t.header := by
  unfold filteredTable
  rw [runidFilterStep_header, afterZeroFilter_header]

theorem mem_filteredTable {runid : Option String} {fz : Bool} {t : Table} {row : Row}
    (h : row ∈ (filteredTable runid fz t).rows) : row ∈ t.rows :=
  mem_afterZeroFilter (mem_runidFilterStep h)

theorem detectSchema_ok_rows_length {t t2 : Table} {rt : String}
    (h : detectSchema t = Except.ok (t2, rt)) : t2.rows.length = t.rows.length := by
  unfold detectSchema at h
  split at h
  · simp only [Except.ok.injEq, Prod.mk.injEq] at h
    rw [← h.1]
  · split at h
    · exact absurd h (by simp)
    · simp only [Except.ok.injEq, Prod.mk.injEq] at h
      rw [← h.1]
      simp [schema2D]

theorem detectSchema_ok_header_mem {t t2 : Table} {rt : String} {c : String}
    (h : detectSchema t = Except.ok (t2, rt)) (hc : c ∈ t.header) : c ∈ t2.header := by
  unfold detectSchema at h
  split at h
  · simp only [Except.ok.injEq, Prod.mk.injEq] at h
    rw [← h.1]
    exact hc
  · split at h
    · exact absurd h (by simp)
    · simp only [Except.ok.injEq, Prod.mk.injEq] at h
      rw [← h.1]
      exact mem_addHeaderCol _ (mem_addHeaderCol _ (mem_addHeaderCol _ (mem_addHeaderCol _ hc)))

theorem firstMissing_eq_none {t : Table} {cs : List String}
    (h : hasCols t cs = true) : firstMissing t cs = none := by
  unfold hasCols at h
  unfold firstMissing
  rw [List.find?_eq_none]
  intro c hc
  have hm := List.all_eq_true.mp h c hc
  simpa using hm

theorem firstMissing_isSome {t : Table} {cs : List String}
    (h : hasCols t cs = false) : ∃ c, firstMissing t cs = some c := by
  cases hf : firstMissing t cs with
  | some c => exact ⟨c, rfl⟩
  | none =>
      exfalso
      have hall : hasCols t cs = true := by
        unfold hasCols
        rw [List.all_eq_true]
        intro c hc
        have hm := List.find?_eq_none.mp hf c hc
        simpa using hm
      rw [hall] at h
      exact absurd h (by simp)

/-- Unpacking a successful run of the pipeline: the canonical table is
the doubly filtered normalized table, and every stored counter matches
its stage. -/
theorem ingest_ok_spec {t : Table} {runid : Option String} {fz : Bool}
    {t2 : Table} {rt : String} {r : IngestResult}
    (h2 : detectSchema (dropna t) = Except.ok (t2, rt))
    (h : ingest t runid fz = Except.ok r) :
    r.df = filteredTable runid fz t2 ∧
    r.run_type = rt ∧
    r.zero_len_reads =
      (if fz then some (t2.rows.length - (zeroFilter t2).rows.length) else none) ∧
    r.runid_counts = runidCounts r.df.rows ∧
    r.total_reads = r.df.rows.length := by
  unfold ingest at h
  rw [h2] at h
  dsimp only at h
  by_cases hread : "read_id" ∈ (filteredTable runid fz t2).header
  · rw [if_pos hread] at h
    injection h with h
    rw [← h]
    exact ⟨rfl, rfl, rfl, rfl, rfl⟩
  · rw [if_neg hread] at h
    exact absurd h (by simp)

/-! Counting lemmas. -/

theorem length_filter_add_length_filter_not {α : Type} (p : α → Bool) (l : List α) :
    (l.filter p).length + (l.filter (fun x => !(p x))).length = l.length := by
  induction l with
  | nil => rfl
  | cons a l ih =>
      by_cases h : p a = true
      · simp [List.filter_cons, h]
        omega
      · have h' : p a = false := by simpa using h
        simp [List.filter_cons, h']
        omega

theorem firstSeen_subset {l : List Val} {x : Val} (h : x ∈ firstSeen l) : x ∈ l := by
  induction l with
  | nil => simp [firstSeen] at h
  | cons v rest ih =>
      simp only [firstSeen, List.mem_cons] at h ⊢
      rcases h with h | h
      · exact Or.inl h
      · exact Or.inr (ih (List.mem_of_mem_filter h))

theorem firstSeen_const {l : List Val} {v : Val} (hne : l ≠ [])
    (hall : ∀ x ∈ l, x = v) : firstSeen l = [v] := by
  induction l with
  | nil => exact absurd rfl hne
  | cons a rest ih =>
      have ha : a = v := hall a (List.mem_cons_self a rest)
      subst ha
      by_cases hr : rest = []
      · subst hr
        rfl
      · rw [firstSeen, ih hr (fun x hx => hall x (List.mem_cons_of_mem _ hx))]
        simp

theorem runidCounts_all_eq {rows : List Row} {v : Val} (hne : rows ≠ [])
    (hall : ∀ r ∈ rows, getCol r "run_id" = v) :
    runidCounts rows = [(v, rows.length)] := by
  unfold runidCounts
  have hmapne : rows.map (fun r => getCol r "run_id") ≠ [] := by
    cases rows with
    | nil => exact absurd rfl hne
    | cons a l => simp
  have hmapall : ∀ x ∈ rows.map (fun r => getCol r "run_id"), x = v := by
    intro x hx
    obtain ⟨r, hr, hrx⟩ := List.mem_map.mp hx
    rw [← hrx]
    exact hall r hr
  rw [firstSeen_const hmapne hmapall]
  have hcount :
      ((rows.map (fun r => getCol r "run_id")).filter (fun x => decide (x = v))).length
        = rows.length := by
    rw [List.filter_eq_self.mpr, List.length_map]
    intro x hx
    exact decide_eq_true (hmapall x hx)
  simp only [List.map_cons, List.map_nil, hcount]
  rfl

/-! Cell predicate lemmas. -/

theorem vposQ_ne_num_zero {v : Val} (h : vposQ v = true) : v ≠ Val.num 0 := by
  cases v with
  | str s => simp [vposQ] at h
  | na => simp [vposQ] at h
  | num q =>
      simp only [vposQ, decide_eq_true_eq] at h
      intro hv
      simp only [Val.num.injEq] at hv
      rw [hv] at h
      exact absurd h (lt_irrefl 0)

theorem vStrEq_eq_str {v : Val} {s : String} (h : vStrEq v s = true) : v = Val.str s := by
  cases v with
  | str x =>
      simp only [vStrEq, decide_eq_true_eq] at h
      rw [h]
  | num q => simp [vStrEq] at h
  | na => simp [vStrEq] at h

theorem norm2DRow_mq2d (r : Row) :
    getCol (norm2DRow r) "mean_qscore_2d" = getCol r "mean_qscore_2d" := by
  unfold norm2DRow
  rw [getCol_setCol_ne _ _ _ _ (by decide), getCol_setCol_ne _ _ _ _ (by decide),
    getCol_setCol_ne _ _ _ _ (by decide), getCol_setCol_ne _ _ _ _ (by decide)]

/-- The stored zero length counter equals the number of rows removed by
the zero length filter step. -/
theorem zero_len_counter_eq (t2 : Table) :
    t2.rows.length - (zeroFilter t2).rows.length
      = (t2.rows.filter (fun x => !(vposQ (getCol x "sequence_length_template")))).length := by
  have hpart := length_filter_add_length_filter_not
    (fun x => vposQ (getCol x "sequence_length_template")) t2.rows
  have hzf : (zeroFilter t2).rows.length
      = (t2.rows.filter (fun x => vposQ (getCol x "sequence_length_template"))).length := rfl
  omega

/-! Claim theorems. -/

/-- C1: Schema detection is ordered and deterministic. A table containing
the full 1D column set is tagged run_type 1D and no field is estimated
(the table passes through detection unchanged, even when the 2D columns
are also present); a table lacking that set but containing the full 2D
set is tagged run_type 2D, with duration set to sequence_length_2d / 450
and num_events to sequence_length_2d * 1.8 (times 9 / 5) exactly, for
every row. -/
theorem c1_schema_detection_deterministic (t : Table) :
    (hasCols t cols1D = true →
      detectSchema (dropna t) = Except.ok (dropna t, "1D") ∧
      ∀ runid fz r, ingest t runid fz = Except.ok r → r.run_type = "1D") ∧
    (hasCols t cols1D = false → hasCols t cols2D = true →
      detectSchema (dropna t) = Except.ok (schema2D (dropna t), "2D") ∧
      (∀ row ∈ (schema2D (dropna t)).rows,
        getCol row "duration" = vdiv (getCol row "sequence_length_2d") 450 ∧
        getCol row "num_events" = vmul (getCol row "sequence_length_2d") (9 / 5) ∧
        getCol row "sequence_length_template" = getCol row "sequence_length_2d" ∧
        getCol row "mean_qscore_template" = getCol row "mean_qscore_2d") ∧
      ∀ runid fz r, ingest t runid fz = Except.ok r → r.run_type = "2D") := by
  have hd1 : hasCols (dropna t) cols1D = hasCols t cols1D := rfl
  have hd2 : hasCols (dropna t) cols2D = hasCols t cols2D := rfl
  constructor
  · intro h1
    have hds : detectSchema (dropna t) = Except.ok (dropna t, "1D") := by
      unfold detectSchema
      rw [hd1, h1]
      simp
    exact ⟨hds, fun runid fz r hok => (ingest_ok_spec hds hok).2.1⟩
  · intro h1 h2
    have hds : detectSchema (dropna t) = Except.ok (schema2D (dropna t), "2D") := by
      unfold detectSchema
      rw [hd1, h1, if_neg (by simp)]
      have hfm : firstMissing (dropna t) cols2D = none :=
        firstMissing_eq_none (by rw [hd2]; exact h2)
      rw [hfm]
    refine ⟨hds, ?_, fun runid fz r hok => (ingest_ok_spec hds hok).2.1⟩
    intro row hrow
    obtain ⟨r0, hr0, hr0eq⟩ := List.mem_map.mp hrow
    rw [← hr0eq]
    refine ⟨?_, ?_, ?_, ?_⟩
    · rw [norm2DRow_duration, norm2DRow_seq2d]
    · rw [norm2DRow_num_events, norm2DRow_seq2d]
    · rw [norm2DRow_seq_template, norm2DRow_seq2d]
    · rw [norm2DRow_qscore_template, norm2DRow_mq2d]

/-- Concrete table carrying both the full 1D and the full 2D column sets. -/
def c1ex1D : Table :=
  { header := ["read_id", "run_id", "channel", "start_time", "duration", "num_events",
               "sequence_length_template", "mean_qscore_template",
               "sequence_length_2d", "mean_qscore_2d"],
    rows := [] }

/-- Concrete table carrying only the 2D column set, with one row. -/
def c1ex2D : Table :=
  { header := ["read_id", "run_id", "channel", "start_time",
               "sequence_length_2d", "mean_qscore_2d"],
    rows := [[("read_id", Val.str "r1"), ("run_id", Val.str "a"), ("channel", Val.num 1),
              ("start_time", Val.num 0), ("sequence_length_2d", Val.num 900),
              ("mean_qscore_2d", Val.num 10)]] }

/-- C1 witness: the theorem applied to a table with both column sets
(detected as 1D) and to a table with only the 2D set (detected as 2D). -/
theorem c1_witness :
    (hasCols c1ex1D cols1D = true ∧
      detectSchema (dropna c1ex1D) = Except.ok (dropna c1ex1D, "1D")) ∧
    (hasCols c1ex2D cols1D = false ∧ hasCols c1ex2D cols2D = true ∧
      detectSchema (dropna c1ex2D) = Except.ok (schema2D (dropna c1ex2D), "2D")) :=
  ⟨⟨by decide, ((c1_schema_detection_deterministic c1ex1D).1 (by decide)).1⟩,
   ⟨by decide, by decide,
    ((c1_schema_detection_deterministic c1ex2D).2 (by decide) (by decide)).1⟩⟩

/-- C6 amended: when neither the 1D nor the 2D column set is fully
present, ingestion fails with a schema error naming the first missing
required field of the 2D check (the first missing 1D field is only
printed as a diagnostic, in the message announcing the 2D fallback). -/
theorem c6_schema_error_names_2d_field (t : Table) (runid : Option String) (fz : Bool)
    (h1 : hasCols t cols1D = false) (h2 : hasCols t cols2D = false) :
    ∃ c, firstMissing t cols2D = some c ∧
      ingest t runid fz = Except.error (IngestError.schemaError c) := by
  obtain ⟨c, hc⟩ := firstMissing_isSome h2
  refine ⟨c, hc, ?_⟩
  have hds : detectSchema (dropna t) = Except.error (IngestError.schemaError c) := by
    unfold detectSchema
    have e1 : hasCols (dropna t) cols1D = false := h1
    rw [e1, if_neg (by simp)]
    have e2 : firstMissing (dropna t) cols2D = some c := hc
    rw [e2]
  unfold ingest
  rw [hds]

/-- Concrete table missing mean_qscore_template from the 1D set and every
2D specific column. -/
def c6ex : Table :=
  { header := ["run_id", "channel", "start_time", "duration", "num_events",
               "sequence_length_template"],
    rows := [] }

/-- C6 counterexample: the failure names sequence_length_2d, the first
missing field of the 2D check, while the first missing field of the 1D
check is mean_qscore_template; the claim as stated is therefore false. -/
theorem c6_counterexample :
    ingest c6ex none false = Except.error (IngestError.schemaError "sequence_length_2d") ∧
    firstMissing c6ex cols1D = some "mean_qscore_template" ∧
    "sequence_length_2d" ≠ "mean_qscore_template" :=
  ⟨rfl, rfl, by decide⟩

/-- C6 witness: the amended theorem applied to the concrete table. -/
theorem c6_witness :
    hasCols c6ex cols1D = false ∧ hasCols c6ex cols2D = false ∧
    ∃ c, firstMissing c6ex cols2D = some c ∧
      ingest c6ex none false = Except.error (IngestError.schemaError c) :=
  ⟨by decide, by decide,
   c6_schema_error_names_2d_field c6ex none false (by decide) (by decide)⟩

/-- C9: ingestion is deterministic: two successful runs of the pipeline
on the same source table with the same filter arguments agree on the
canonical table (row order and values), the run id count table and every
counter. The embedded pipeline is a pure function of the parsed source,
which it never mutates. -/
theorem c9_ingest_deterministic (t : Table) (runid : Option String) (fz : Bool)
    (r1 r2 : IngestResult)
    (h1 : ingest t runid fz = Except.ok r1)
    (h2 : ingest t runid fz = Except.ok r2) :
    r1.df = r2.df ∧ r1.run_type = r2.run_type ∧ r1.zero_len_reads = r2.zero_len_reads ∧
    r1.runid_counts = r2.runid_counts ∧ r1.total_reads = r2.total_reads := by
  rw [h1] at h2
  injection h2 with h
  rw [h]
  exact ⟨rfl, rfl, rfl, rfl, rfl⟩

/-- Concrete well formed 1D table with one read. -/
def c9ex : Table :=
  { header := ["read_id", "run_id", "channel", "start_time", "duration", "num_events",
               "sequence_length_template", "mean_qscore_template"],
    rows := [[("read_id", Val.str "r1"), ("run_id", Val.str "a"), ("channel", Val.num 1),
              ("start_time", Val.num 0), ("duration", Val.num 1), ("num_events", Val.num 10),
              ("sequence_length_template", Val.num 100), ("mean_qscore_template", Val.num 9)]] }

/-- C9 witness: the theorem applied to two runs on the concrete table. -/
theorem c9_witness :
    ingest c9ex none false
        = Except.ok ((ingest c9ex none false).toOption.getD default) ∧
    ((ingest c9ex none false).toOption.getD default).total_reads
        = ((ingest c9ex none false).toOption.getD default).total_reads :=
  ⟨by rfl, (c9_ingest_deterministic c9ex none false _ _ (by rfl) (by rfl)).2.2.2.2⟩

/-- C10: the run id filter runs only when the runid argument is truthy;
for the empty string, ingestion behaves exactly as with no run id filter,
and the selection step removes no record. -/
theorem c10_falsy_runid_skips_filter (t : Table) (fz : Bool) :
    ingest t (some "") fz = ingest t none fz ∧ runidFilterStep (some "") t = t := by
  have hr : ∀ u : Table, runidFilterStep (some "") u = u := by
    intro u
    show (if "" = "" then u
      else { u with rows := u.rows.filter (fun r => vStrEq (getCol r "run_id") "") }) = u
    rw [if_pos rfl]
  constructor
  · unfold ingest
    cases hds : detectSchema (dropna t) with
    | error e => rfl
    | ok p =>
        obtain ⟨t2, rt⟩ := p
        dsimp only
        have hf : filteredTable (some "") fz t2 = filteredTable none fz t2 := by
          unfold filteredTable
          rw [hr]
          rfl
        rw [hf]
  · exact hr t

/-- C2 amended: only the total valid read count is always stored, and the
zero length discard counter only when that filter is on (it is absent,
not 0, when the filter is off); the per stage discard counts nonetheless
satisfy row count conservation: total valid reads plus rows discarded as
incomplete, discarded for zero length and discarded by the run id filter
equal the data rows of the source. -/
theorem c2_row_count_conservation (t : Table) (runid : Option String) (fz : Bool)
    (t2 : Table) (rt : String) (r : IngestResult)
    (h2 : detectSchema (dropna t) = Except.ok (t2, rt))
    (h : ingest t runid fz = Except.ok r) :
    r.total_reads
        + (t.rows.length - (dropna t).rows.length)
        + (if fz then t2.rows.length - (zeroFilter t2).rows.length else 0)
        + ((afterZeroFilter fz t2).rows.length - (filteredTable runid fz t2).rows.length)
      = t.rows.length ∧
    r.zero_len_reads =
      (if fz then some (t2.rows.length - (zeroFilter t2).rows.length) else none) := by
  obtain ⟨hdf, -, hz, -, htot⟩ := ingest_ok_spec h2 h
  refine ⟨?_, hz⟩
  rw [htot, hdf]
  have hA : (dropna t).rows.length ≤ t.rows.length := List.length_filter_le _ _
  have hB : t2.rows.length = (dropna t).rows.length := detectSchema_ok_rows_length h2
  have hD : (filteredTable runid fz t2).rows.length ≤ (afterZeroFilter fz t2).rows.length :=
    runidFilterStep_length_le _ _
  cases fz with
  | false =>
      have hE : afterZeroFilter false t2 = t2 := rfl
      rw [hE] at hD ⊢
      rw [if_neg (by decide : ¬ (false = true))]
      omega
  | true =>
      have hE : afterZeroFilter true t2 = zeroFilter t2 := rfl
      have hC : (zeroFilter t2).rows.length ≤ t2.rows.length := List.length_filter_le _ _
      rw [hE] at hD ⊢
      rw [if_pos rfl]
      omega

/-- Concrete well formed 1D table with one read. -/
def c2ex : Table :=
  { header := ["read_id", "run_id", "channel", "start_time", "duration", "num_events",
               "sequence_length_template", "mean_qscore_template"],
    rows := [[("read_id", Val.str "r1"), ("run_id", Val.str "a"), ("channel", Val.num 1),
              ("start_time", Val.num 0), ("duration", Val.num 1), ("num_events", Val.num 10),
              ("sequence_length_template", Val.num 100), ("mean_qscore_template", Val.num 9)]] }

/-- C2 counterexample: with the zero length filter off, the stored zero
length discard counter is absent rather than 0, so ingestion does not
return all four counters with 0 for an inactive filter. -/
theorem c2_counterexample :
    (ingest c2ex none false).toOption.map IngestResult.zero_len_reads = some none ∧
    (none : Option Nat) ≠ some 0 :=
  ⟨rfl, by decide⟩

/-- Table with four rows: one valid for run a, one zero length, one of
run b, one incomplete. -/
def c2wex : Table :=
  { header := ["read_id", "run_id", "channel", "start_time", "duration", "num_events",
               "sequence_length_template", "mean_qscore_template"],
    rows :=
      [[("read_id", Val.str "r1"), ("run_id", Val.str "a"), ("channel", Val.num 1),
        ("start_time", Val.num 0), ("duration", Val.num 1), ("num_events", Val.num 10),
        ("sequence_length_template", Val.num 100), ("mean_qscore_template", Val.num 9)],
       [("read_id", Val.str "r2"), ("run_id", Val.str "a"), ("channel", Val.num 2),
        ("start_time", Val.num 5), ("duration", Val.num 1), ("num_events", Val.num 4),
        ("sequence_length_template", Val.num 0), ("mean_qscore_template", Val.num 3)],
       [("read_id", Val.str "r3"), ("run_id", Val.str "b"), ("channel", Val.num 3),
        ("start_time", Val.num 7), ("duration", Val.num 2), ("num_events", Val.num 20),
        ("sequence_length_template", Val.num 50), ("mean_qscore_template", Val.num 8)],
       [("read_id", Val.str "r4"), ("run_id", Val.str "a"), ("channel", Val.num 4),
        ("start_time", Val.num 9), ("duration", Val.num 1), ("num_events", Val.num 5),
        ("sequence_length_template", Val.num 60), ("mean_qscore_template", Val.na)]] }

/-- C2 witness: the amended theorem applied with both filters active on a
table losing one row to each discard cause. -/
theorem c2_witness :
    detectSchema (dropna c2wex) = Except.ok (dropna c2wex, "1D") ∧
    ingest c2wex (some "a") true
        = Except.ok ((ingest c2wex (some "a") true).toOption.getD default) ∧
    ((ingest c2wex (some "a") true).toOption.getD default).total_reads
        + (c2wex.rows.length - (dropna c2wex).rows.length)
        + (if true then (dropna c2wex).rows.length - (zeroFilter (dropna c2wex)).rows.length
           else 0)
        + ((afterZeroFilter true (dropna c2wex)).rows.length
            - (filteredTable (some "a") true (dropna c2wex)).rows.length)
      = c2wex.rows.length :=
  ⟨by rfl, by rfl,
   (c2_row_count_conservation c2wex (some "a") true (dropna c2wex) "1D"
      ((ingest c2wex (some "a") true).toOption.getD default) (by rfl) (by rfl)).1⟩

/-- C3 amended: ingestion performs no read_id uniqueness check: whenever
schema detection succeeds and the read_id column is present, the pipeline
returns a canonical table containing every surviving row, duplicated
read_id values included; no duplicate key failure exists in the
pipeline. -/
theorem c3_no_duplicate_check (t : Table) (runid : Option String) (fz : Bool)
    (t2 : Table) (rt : String)
    (h2 : detectSchema (dropna t) = Except.ok (t2, rt))
    (hread : "read_id" ∈ t2.header) :
    ∃ r, ingest t runid fz = Except.ok r ∧
      r.df.rows = (filteredTable runid fz t2).rows := by
  have hh : "read_id" ∈ (filteredTable runid fz t2).header := by
    rw [filteredTable_header]
    exact hread
  unfold ingest
  rw [h2]
  dsimp only
  rw [if_pos hh]
  exact ⟨_, rfl, rfl⟩

/-- Table with two complete reads sharing the read_id value x. -/
def c3ex : Table :=
  { header := ["read_id", "run_id", "channel", "start_time", "duration", "num_events",
               "sequence_length_template", "mean_qscore_template"],
    rows :=
      [[("read_id", Val.str "x"), ("run_id", Val.str "a"), ("channel", Val.num 1),
        ("start_time", Val.num 0), ("duration", Val.num 1), ("num_events", Val.num 10),
        ("sequence_length_template", Val.num 100), ("mean_qscore_template", Val.num 9)],
       [("read_id", Val.str "x"), ("run_id", Val.str "a"), ("channel", Val.num 2),
        ("start_time", Val.num 3), ("duration", Val.num 1), ("num_events", Val.num 12),
        ("sequence_length_template", Val.num 120), ("mean_qscore_template", Val.num 7)]] }

/-- C3 counterexample: two surviving records share a read_id, yet
ingestion succeeds and returns both, so no duplicate key failure is
raised and the canonical table holds duplicated read_id values. -/
theorem c3_counterexample :
    (ingest c3ex none false).toOption.map
        (fun r => r.df.rows.map (fun row => getCol row "read_id"))
      = some [Val.str "x", Val.str "x"] :=
  rfl

/-- C3 witness: the amended theorem applied to the duplicated table. -/
theorem c3_witness :
    detectSchema (dropna c3ex) = Except.ok (dropna c3ex, "1D") ∧
    "read_id" ∈ (dropna c3ex).header ∧
    ∃ r, ingest c3ex none false = Except.ok r ∧
      r.df.rows = (filteredTable none false (dropna c3ex)).rows :=
  ⟨by rfl, by decide,
   c3_no_duplicate_check c3ex none false (dropna c3ex) "1D" (by rfl) (by decide)⟩

/-- C4: with the zero length filter on, no record of the canonical table
has sequence_length 0, and the stored discard counter equals the exact
number of records removed by the zero length filter step. -/
theorem c4_zero_length_filter (t : Table) (runid : Option String)
    (t2 : Table) (rt : String) (r : IngestResult)
    (h2 : detectSchema (dropna t) = Except.ok (t2, rt))
    (h : ingest t runid true = Except.ok r) :
    (∀ row ∈ r.df.rows, getCol row "sequence_length_template" ≠ Val.num 0) ∧
    r.zero_len_reads =
      some ((t2.rows.filter
        (fun x => !(vposQ (getCol x "sequence_length_template")))).length) := by
  obtain ⟨hdf, -, hz, -, -⟩ := ingest_ok_spec h2 h
  constructor
  · intro row hrow
    rw [hdf] at hrow
    have h1 : row ∈ (afterZeroFilter true t2).rows := mem_runidFilterStep hrow
    have h2p : vposQ (getCol row "sequence_length_template") = true :=
      (List.mem_filter.mp h1).2
    exact vposQ_ne_num_zero h2p
  · rw [hz, if_pos rfl, zero_len_counter_eq]

/-- Table with one zero length read and one proper read. -/
def c4wex : Table :=
  { header := ["read_id", "run_id", "channel", "start_time", "duration", "num_events",
               "sequence_length_template", "mean_qscore_template"],
    rows :=
      [[("read_id", Val.str "r1"), ("run_id", Val.str "a"), ("channel", Val.num 1),
        ("start_time", Val.num 0), ("duration", Val.num 1), ("num_events", Val.num 10),
        ("sequence_length_template", Val.num 0), ("mean_qscore_template", Val.num 2)],
       [("read_id", Val.str "r2"), ("run_id", Val.str "a"), ("channel", Val.num 2),
        ("start_time", Val.num 3), ("duration", Val.num 1), ("num_events", Val.num 12),
        ("sequence_length_template", Val.num 120), ("mean_qscore_template", Val.num 7)]] }

/-- C4 witness: the theorem applied to a table losing one zero length
read. -/
theorem c4_witness :
    detectSchema (dropna c4wex) = Except.ok (dropna c4wex, "1D") ∧
    ingest c4wex none true = Except.ok ((ingest c4wex none true).toOption.getD default) ∧
    ((∀ row ∈ ((ingest c4wex none true).toOption.getD default).df.rows,
        getCol row "sequence_length_template" ≠ Val.num 0) ∧
      ((ingest c4wex none true).toOption.getD default).zero_len_reads
        = some (((dropna c4wex).rows.filter
            (fun x => !(vposQ (getCol x "sequence_length_template")))).length)) :=
  ⟨by rfl, by rfl,
   c4_zero_length_filter c4wex none (dropna c4wex) "1D"
     ((ingest c4wex none true).toOption.getD default) (by rfl) (by rfl)⟩

/-- C5 amended: with a non empty run id filter X, every record of the
canonical table has run_id X, and whenever at least one record survives
the run id count table is exactly the single entry mapping X to the total
valid read count (when no record survives it is empty, not a single
entry with count 0). -/
theorem c5_runid_filter (t : Table) (X : String) (fz : Bool) (r : IngestResult)
    (hX : X ≠ "")
    (h : ingest t (some X) fz = Except.ok r)
    (hne : r.df.rows ≠ []) :
    (∀ row ∈ r.df.rows, getCol row "run_id" = Val.str X) ∧
    r.runid_counts = [(Val.str X, r.total_reads)] := by
  cases hds : detectSchema (dropna t) with
  | error e =>
      unfold ingest at h
      rw [hds] at h
      exact absurd h (by simp)
  | ok p =>
      obtain ⟨t2, rt⟩ := p
      obtain ⟨hdf, -, -, hrc, htot⟩ := ingest_ok_spec hds h
      have hflt : (filteredTable (some X) fz t2).rows
          = (afterZeroFilter fz t2).rows.filter (fun x => vStrEq (getCol x "run_id") X) := by
        unfold filteredTable runidFilterStep
        dsimp only
        rw [if_neg hX]
      have hall : ∀ row ∈ r.df.rows, getCol row "run_id" = Val.str X := by
        intro row hrow
        rw [hdf, hflt] at hrow
        exact vStrEq_eq_str (List.mem_filter.mp hrow).2
      exact ⟨hall, by rw [hrc, runidCounts_all_eq hne hall, htot]⟩

/-- Concrete well formed 1D table whose only read belongs to run a. -/
def c5ex : Table :=
  { header := ["read_id", "run_id", "channel", "start_time", "duration", "num_events",
               "sequence_length_template", "mean_qscore_template"],
    rows := [[("read_id", Val.str "r1"), ("run_id", Val.str "a"), ("channel", Val.num 1),
              ("start_time", Val.num 0), ("duration", Val.num 1), ("num_events", Val.num 10),
              ("sequence_length_template", Val.num 100), ("mean_qscore_template", Val.num 9)]] }

/-- C5 counterexample: filtering on run id b removes every record; the
run id count table of the result is empty rather than the single entry
mapping b to the total valid read count 0, so the claim as stated is
false. -/
theorem c5_counterexample :
    (ingest c5ex (some "b") false).toOption.map IngestResult.runid_counts = some [] ∧
    (ingest c5ex (some "b") false).toOption.map IngestResult.total_reads = some 0 ∧
    ([] : List (Val × Nat)) ≠ [(Val.str "b", 0)] :=
  ⟨rfl, rfl, by decide⟩

/-- Concrete well formed 1D table whose only read belongs to run b. -/
def c5wex : Table :=
  { header := ["read_id", "run_id", "channel", "start_time", "duration", "num_events",
               "sequence_length_template", "mean_qscore_template"],
    rows := [[("read_id", Val.str "r1"), ("run_id", Val.str "b"), ("channel", Val.num 1),
              ("start_time", Val.num 0), ("duration", Val.num 1), ("num_events", Val.num 10),
              ("sequence_length_template", Val.num 100), ("mean_qscore_template", Val.num 9)]] }

/-- C5 witness: the amended theorem applied to a filter that keeps the
single read of run b. -/
theorem c5_witness :
    ("b" : String) ≠ "" ∧
    ingest c5wex (some "b") false
        = Except.ok ((ingest c5wex (some "b") false).toOption.getD default) ∧
    ((ingest c5wex (some "b") false).toOption.getD default).df.rows ≠ [] ∧
    ((∀ row ∈ ((ingest c5wex (some "b") false).toOption.getD default).df.rows,
        getCol row "run_id" = Val.str "b") ∧
      ((ingest c5wex (some "b") false).toOption.getD default).runid_counts
        = [(Val.str "b",
            ((ingest c5wex (some "b") false).toOption.getD default).total_reads)]) :=
  ⟨by decide, by rfl, by decide,
   c5_runid_filter c5wex "b" false ((ingest c5wex (some "b") false).toOption.getD default)
     (by decide) (by rfl) (by decide)⟩

/-- C7: the zero length filter runs before the run id filter, so a record
with sequence_length 0 and a non matching run_id is counted by the zero
length discard counter (it belongs to the set of rows the counter
measures) and not among the rows removed by the run id step. -/
theorem c7_zero_filter_before_runid (t : Table) (X : String)
    (t2 : Table) (rt : String) (r : IngestResult)
    (h2 : detectSchema (dropna t) = Except.ok (t2, rt))
    (h : ingest t (some X) true = Except.ok r) :
    r.zero_len_reads =
      some ((t2.rows.filter
        (fun x => !(vposQ (getCol x "sequence_length_template")))).length) ∧
    ∀ row ∈ t2.rows,
      getCol row "sequence_length_template" = Val.num 0 →
      vStrEq (getCol row "run_id") X = false →
      (row ∈ t2.rows.filter (fun x => !(vposQ (getCol x "sequence_length_template"))) ∧
       row ∉ (zeroFilter t2).rows.filter (fun x => !(vStrEq (getCol x "run_id") X))) := by
  obtain ⟨-, -, hz, -, -⟩ := ingest_ok_spec h2 h
  refine ⟨by rw [hz, if_pos rfl, zero_len_counter_eq], ?_⟩
  intro row hrow h0 hXne
  constructor
  · refine List.mem_filter.mpr ⟨hrow, ?_⟩
    rw [h0]
    rfl
  · intro hmem
    have hzf : row ∈ (zeroFilter t2).rows := (List.mem_filter.mp hmem).1
    have hpos : vposQ (getCol row "sequence_length_template") = true :=
      (List.mem_filter.mp hzf).2
    rw [h0] at hpos
    exact absurd hpos (by decide)

/-- Table with a zero length read of run a and a proper read of run b. -/
def c7wex : Table :=
  { header := ["read_id", "run_id", "channel", "start_time", "duration", "num_events",
               "sequence_length_template", "mean_qscore_template"],
    rows :=
      [[("read_id", Val.str "r1"), ("run_id", Val.str "a"), ("channel", Val.num 1),
        ("start_time", Val.num 0), ("duration", Val.num 1), ("num_events", Val.num 10),
        ("sequence_length_template", Val.num 0), ("mean_qscore_template", Val.num 2)],
       [("read_id", Val.str "r2"), ("run_id", Val.str "b"), ("channel", Val.num 2),
        ("start_time", Val.num 3), ("duration", Val.num 1), ("num_events", Val.num 12),
        ("sequence_length_template", Val.num 120), ("mean_qscore_template", Val.num 7)]] }

/-- C7 witness: the theorem applied with both filters active to a table
holding a read that is both zero length and of a non matching run. -/
theorem c7_witness :
    detectSchema (dropna c7wex) = Except.ok (dropna c7wex, "1D") ∧
    ingest c7wex (some "b") true
        = Except.ok ((ingest c7wex (some "b") true).toOption.getD default) ∧
    (((ingest c7wex (some "b") true).toOption.getD default).zero_len_reads
        = some (((dropna c7wex).rows.filter
            (fun x => !(vposQ (getCol x "sequence_length_template")))).length) ∧
      ∀ row ∈ (dropna c7wex).rows,
        getCol row "sequence_length_template" = Val.num 0 →
        vStrEq (getCol row "run_id") "b" = false →
        (row ∈ (dropna c7wex).rows.filter
            (fun x => !(vposQ (getCol x "sequence_length_template"))) ∧
         row ∉ (zeroFilter (dropna c7wex)).rows.filter
            (fun x => !(vStrEq (getCol x "run_id") "b")))) :=
  ⟨by rfl, by rfl,
   c7_zero_filter_before_runid c7wex "b" (dropna c7wex) "1D"
     ((ingest c7wex (some "b") true).toOption.getD default) (by rfl) (by rfl)⟩
